import Mathlib

/-
Verification of the turok core (multi-source torrent search orchestrator and
heuristic site-configuration synthesizer).

This file is a shallow embedding of the Python sources under src/core into
Lean 4:
  - src/core/models.py        : TorrentResult and its derived health field
  - src/core/sources/base.py  : add_trackers, parse_size, the TRACKERS list
  - src/core/search.py        : SearchOrchestrator (blocking and streaming)
  - src/core/sources/dynamic.py and x1337.py : the config-driven extractor
    and the fixed 1337x adapter
  - src/core/analyzer/validator.py, detectors.py, analyzer.py
  - src/core/config/schema.py : SiteConfig dict (de)serialization

Modelling conventions:
  - Python ints are Int, byte counts that feed Int fields are Nat where the
    source can only produce non-negative values.
  - Python float division and float literals are modelled with exact
    rationals; every comparison proved here involves only values where
    float and rational arithmetic agree.
  - requests / BeautifulSoup / urllib are collaborators: a fetch is an
    Except value (error = raised transport exception), a parsed document or
    element is a value of the Elem type whose select functions are supplied
    by each concrete fixture, and urljoin is passed in as a function.
  - a Python function that can raise is modelled with Option/Except, with
    none / .error standing for the raised exception.
-/

/-! ## Data model: src/core/models.py -/

/-- Shallow embedding of the TorrentResult dataclass.  Numeric fields are
Int because the Python fields are plain ints (nothing in the dataclass
constrains their sign). -/
structure TorrentResult where
  title : String
  seeders : Int
  leechers : Int
  size : Int
  source : String
  magnet_link : Option String := none
  detail_url : Option String := none
  category : Option String := none
  uploaded : Option String := none
  uploader : Option String := none
deriving Repr, DecidableEq

/-- TorrentResult.health from src/core/models.py lines 21-33.  The Python
ratio `self.seeders / max(self.leechers, 1)` is float division of two ints;
it is modelled as exact rational division (the comparisons 2 < ratio and
1 < ratio are decided identically for the integer ranges involved). -/
def TorrentResult.health (r : TorrentResult) : String :=
  if r.seeders = 0 then "dead"
  else if 100 < r.seeders ∧ (2 : ℚ) < (r.seeders : ℚ) / ((max r.leechers 1 : Int) : ℚ) then "excellent"
  else if 20 < r.seeders ∧ (1 : ℚ) < (r.seeders : ℚ) / ((max r.leechers 1 : Int) : ℚ) then "good"
  else if 5 < r.seeders then "fair"
  else "poor"

/-- Rank of the health classification in the order stated by the spec:
dead < poor < fair < good < excellent. -/
def healthRank (h : String) : Nat :=
  if h = "dead" then 0
  else if h = "poor" then 1
  else if h = "fair" then 2
  else if h = "good" then 3
  else if h = "excellent" then 4
  else 0

/-- Integer characterization of health: the float comparisons are replaced
by the equivalent integer comparisons against max(leechers, 1). -/
def healthI (s l : Int) : String :=
  if s = 0 then "dead"
  else if 100 < s ∧ 2 * max l 1 < s then "excellent"
  else if 20 < s ∧ max l 1 < s then "good"
  else if 5 < s then "fair"
  else "poor"

/-! ## src/core/sources/base.py : trackers and size parsing -/

/-- Single-quote character, used to build CSS selector string constants. -/
def sqch : String := (Char.ofNat 39).toString

/-- The fixed TRACKERS list from src/core/sources/base.py lines 16-25. -/
def TRACKERS : List String :=
  ["udp://tracker.opentrackr.org:1337/announce",
   "udp://open.stealth.si:80/announce",
   "udp://tracker.torrent.eu.org:451/announce",
   "udp://tracker.bittor.pw:1337/announce",
   "udp://public.popcorn-tracker.org:6969/announce",
   "udp://tracker.dler.org:6969/announce",
   "udp://exodus.desync.com:6969/announce",
   "udp://open.demonii.com:1337/announce"]

/-- Uppercase hexadecimal digit, for percent-encoding. -/
def hexDigit (n : Nat) : Char :=
  if n < 10 then Char.ofNat (48 + n) else Char.ofNat (65 + (n - 10))

/-- Characters urllib.parse.quote never encodes (ASCII letters, digits and
the marks underscore, dot, hyphen, tilde). -/
def quoteSafe (c : Char) : Bool :=
  (65 ≤ c.toNat ∧ c.toNat ≤ 90) ∨ (97 ≤ c.toNat ∧ c.toNat ≤ 122) ∨
  (48 ≤ c.toNat ∧ c.toNat ≤ 57) ∨ c = '_' ∨ c = '.' ∨ c = '-' ∨ c = '~'

/-- urllib.parse.quote with safe set empty, restricted to the ASCII strings
it is applied to here (the TRACKERS constants). -/
def pyQuote (s : String) : String :=
  String.join (s.toList.map (fun c =>
    if quoteSafe c then String.singleton c
    else "%" ++ String.singleton (hexDigit (c.toNat / 16))
             ++ String.singleton (hexDigit (c.toNat % 16))))

/-- The tracker_params string built inside add_trackers. -/
def trackerParams : String :=
  String.join (TRACKERS.map (fun t => "&tr=" ++ pyQuote t))

/-- Python substring membership test (the `in` operator on str). -/
def pyIn (pat s : String) : Bool := decide (pat.data <:+: s.data)

/-- add_trackers from src/core/sources/base.py lines 28-33: a falsy (empty)
magnet or one already containing the substring "&tr=" is returned unchanged,
otherwise the fixed tracker parameter block is appended. -/
def add_trackers (magnet : String) : String :=
  if magnet = "" ∨ pyIn "&tr=" magnet = true then magnet
  else magnet ++ trackerParams

/-- Python whitespace (the regex class \s and str.strip on ASCII input). -/
def isPySpace (c : Char) : Bool :=
  c = ' ' ∨ c = Char.ofNat 9 ∨ c = Char.ofNat 10 ∨ c = Char.ofNat 11 ∨
  c = Char.ofNat 12 ∨ c = Char.ofNat 13

/-- str.upper() on the ASCII strings involved here. -/
def pyUpper (s : String) : String := String.mk (s.data.map Char.toUpper)

/-- str.strip() on both ends. -/
def pyStrip (s : String) : String :=
  String.mk (((s.data.dropWhile isPySpace).reverse.dropWhile isPySpace).reverse)

/-- Characters matched by the regex class [\d.]. -/
def isSizeChar (c : Char) : Bool := c.isDigit || c = '.'

/-- The unit alternation of the size regex, in its alternative order. -/
def SIZE_UNITS : List String :=
  ["B", "KB", "MB", "GB", "TB", "KIB", "MIB", "GIB", "TIB"]

/-- Leftmost match of re.match applied to the pattern of parse_size: a
nonempty leading run of [\d.], then optional whitespace, then the first
unit alternative matching at that position.  The three character classes
are disjoint (digits and dot, whitespace, letters), so the greedy reading
without backtracking is the exact regex semantics here. -/
def matchSize (s : String) : Option (List Char × String) :=
  let g1 := s.data.takeWhile isSizeChar
  if g1 = [] then none
  else
    let rest := (s.data.dropWhile isSizeChar).dropWhile isPySpace
    match SIZE_UNITS.find? (fun u => u.data.isPrefixOf rest) with
    | some u => some (g1, u)
    | none => none

/-- Numeric value of a list of decimal digit characters. -/
def digitsVal (l : List Char) : Nat :=
  l.foldl (fun n c => 10 * n + (c.toNat - 48)) 0

/-- float() applied to a nonempty string made of digits and dots: defined
when the string has at most one dot and at least one digit (such as "1.5",
"1.", ".5"), none otherwise, where Python raises ValueError (such as "." or
"1.2.3").  The value is represented exactly as the pair (numerator, scale)
meaning numerator / 10 ^ scale. -/
def pyFloatDD (l : List Char) : Option (Nat × Nat) :=
  if l.count '.' = 0 then
    some (digitsVal l, 0)
  else if l.count '.' = 1 then
    if l.takeWhile (fun c => c ≠ '.') = [] ∧ (l.dropWhile (fun c => c ≠ '.')).drop 1 = [] then
      none
    else
      some (digitsVal (l.takeWhile (fun c => c ≠ '.')) *
              10 ^ ((l.dropWhile (fun c => c ≠ '.')).drop 1).length +
            digitsVal ((l.dropWhile (fun c => c ≠ '.')).drop 1),
            ((l.dropWhile (fun c => c ≠ '.')).drop 1).length)
  else none

/-- The multipliers dict of parse_size, looked up with default 1. -/
def sizeMultiplier (u : String) : Nat :=
  if u = "B" then 1
  else if u = "KB" ∨ u = "KIB" then 1024
  else if u = "MB" ∨ u = "MIB" then 1024 ^ 2
  else if u = "GB" ∨ u = "GIB" then 1024 ^ 3
  else if u = "TB" ∨ u = "TIB" then 1024 ^ 4
  else 1

/-- parse_size from src/core/sources/base.py lines 36-55.  The result is
none exactly when the Python function raises (the ValueError float() gives
on a matched numeric group that is not a float literal, which parse_size
does not catch).  Python computes int(value * multiplier) in float
arithmetic; here the product is exact rational, truncated, and every
concrete value proved below is exact in both arithmetics. -/
def parse_size (size_str : String) : Option Int :=
  match matchSize (pyStrip (pyUpper size_str)) with
  | none => some 0
  | some (g1, u) =>
    match pyFloatDD g1 with
    | none => none
    | some (num, scale) => some ((num * sizeMultiplier u / 10 ^ scale : Nat) : Int)

/-! ## src/core/config/schema.py : SiteConfig and dict (de)serialization -/

/-- The default magnet selector string of SelectorsConfig. -/
def magnetSelectorDefault : String := "a[href^=" ++ sqch ++ "magnet:" ++ sqch ++ "]"

/-- The default size_regex string of PatternsConfig. -/
def sizeRegexDefault : String := "(\\d+(?:\\.\\d+)?\\s*(?:GB|MB|KB|TB))"

/-- SearchConfig dataclass from src/core/config/schema.py. -/
structure SearchConfig where
  url_template : String
  method : String := "GET"
deriving Repr, DecidableEq

/-- SelectorsConfig dataclass from src/core/config/schema.py. -/
structure SelectorsConfig where
  result_item : String
  title : String
  magnet : String := magnetSelectorDefault
  title_link : Option String := none
  size : Option String := none
  seeders : Option String := none
  leechers : Option String := none
deriving Repr, DecidableEq

/-- PatternsConfig dataclass from src/core/config/schema.py. -/
structure PatternsConfig where
  size_regex : String := sizeRegexDefault
deriving Repr, DecidableEq

/-- SiteConfig dataclass from src/core/config/schema.py. -/
structure SiteConfig where
  name : String
  base_url : String
  search : SearchConfig
  selectors : SelectorsConfig
  patterns : PatternsConfig := {}
  enabled : Bool := true
deriving Repr, DecidableEq

/-- The nested "search" dict: a field is none when the key is absent. -/
structure SearchDict where
  url_template : Option String := none
  method : Option String := none
deriving Repr, DecidableEq

/-- The nested "selectors" dict.  For the nullable selector entries the
outer Option is key presence and the inner Option is the stored value
(Python None or a string). -/
structure SelectorsDict where
  result_item : Option String := none
  title : Option String := none
  magnet : Option String := none
  title_link : Option (Option String) := none
  size : Option (Option String) := none
  seeders : Option (Option String) := none
  leechers : Option (Option String) := none
deriving Repr, DecidableEq

/-- The nested "patterns" dict. -/
structure PatternsDict where
  size_regex : Option String := none
deriving Repr, DecidableEq

/-- The top-level dict handled by to_dict / from_dict. -/
structure SiteDict where
  name : Option String := none
  base_url : Option String := none
  enabled : Option Bool := none
  search : Option SearchDict := none
  selectors : Option SelectorsDict := none
  patterns : Option PatternsDict := none
deriving Repr, DecidableEq

/-- SiteConfig.to_dict from src/core/config/schema.py lines 45-67: every
key is written, nullable selector values are written as stored. -/
def SiteConfig.to_dict (c : SiteConfig) : SiteDict :=
  { name := some c.name
    base_url := some c.base_url
    enabled := some c.enabled
    search := some { url_template := some c.search.url_template,
                     method := some c.search.method }
    selectors := some { result_item := some c.selectors.result_item,
                        title := some c.selectors.title,
                        magnet := some c.selectors.magnet,
                        title_link := some c.selectors.title_link,
                        size := some c.selectors.size,
                        seeders := some c.selectors.seeders,
                        leechers := some c.selectors.leechers }
    patterns := some { size_regex := some c.patterns.size_regex } }

/-- SiteConfig.from_dict from src/core/config/schema.py lines 69-98.
data.get(k, default) is getD; data[k] on an absent required key raises
KeyError, modelled by the none result.  Python data.get("title_link")
yields None both for an absent key and for a stored null, so the two
Option layers collapse with getD none, exactly as in the source. -/
def SiteConfig.from_dict (key : String) (data : SiteDict) : Option SiteConfig :=
  match data.base_url, (data.search.getD {}).url_template,
        (data.selectors.getD {}).result_item, (data.selectors.getD {}).title with
  | some base_url, some url_template, some result_item, some title =>
    some { name := data.name.getD key
           base_url := base_url
           enabled := data.enabled.getD true
           search := { url_template := url_template,
                       method := (data.search.getD {}).method.getD "GET" }
           selectors := { result_item := result_item
                          title := title
                          magnet := (data.selectors.getD {}).magnet.getD magnetSelectorDefault
                          title_link := (data.selectors.getD {}).title_link.getD none
                          size := (data.selectors.getD {}).size.getD none
                          seeders := (data.selectors.getD {}).seeders.getD none
                          leechers := (data.selectors.getD {}).leechers.getD none }
           patterns := { size_regex := (data.patterns.getD {}).size_regex.getD sizeRegexDefault } }
  | _, _, _, _ => none

/-! ## src/core/search.py : SearchOrchestrator -/

/-- str.lower() on the ASCII strings involved here. -/
def pyLower (s : String) : String := String.mk (s.data.map Char.toLower)

/-- SearchOrchestrator._sort_results from src/core/search.py lines 165-175.
Python sorted() is a stable sort; sorted(key, reverse=True) keeps the
original relative order of equal keys, which is the stable insertion sort
with the comparator that prefers the left element on ties. -/
def sortResults (results : List TorrentResult) (sort_by : String) : List TorrentResult :=
  if sort_by = "size" then results.insertionSort (fun a b => b.size ≤ a.size)
  else if sort_by = "name" then results.insertionSort (fun a b => pyLower a.title ≤ pyLower b.title)
  else results.insertionSort (fun a b => b.seeders ≤ a.seeders)

/-- The surviving results of a batch of per-source outcomes: failing
sources are dropped, the rest are concatenated in registry order (the
future.result() loop of search_sync iterates the futures dict in
submission order). -/
def survivors (outcomes : List (Except String (List TorrentResult))) : List TorrentResult :=
  (outcomes.filterMap Except.toOption).flatten

/-- SearchOrchestrator.search_sync from src/core/search.py lines 45-61,
with each sources search represented by its outcome (ok with its results,
or error when the future raised, silently dropped by the except branch):
concatenate survivors, sort, truncate to the limit. -/
def search_sync (outcomes : List (Except String (List TorrentResult)))
    (limit : Nat) (sort_by : String) : List TorrentResult :=
  (sortResults (survivors outcomes) sort_by).take limit

/-- SearchUpdate dataclass from src/core/search.py lines 24-31. -/
structure SearchUpdate where
  source : String
  status : String
  results : List TorrentResult
  error : Option String := none
deriving Repr, DecidableEq

/-- The loading update emitted for a source before its task starts
(src/core/search.py lines 135-140 and 93-100). -/
def loadingUpdate (name : String) : SearchUpdate :=
  { source := name, status := "loading", results := [] }

/-- The one terminal update a sources task enqueues: done with its results
on normal return, error with the message when the search raised
(src/core/search.py lines 114-132 and 70-90). -/
def terminalUpdate (name : String) (o : Except String (List TorrentResult)) : SearchUpdate :=
  match o with
  | .ok rs => { source := name, status := "done", results := rs }
  | .error e => { source := name, status := "error", results := [], error := some e }

/-- The registered source names of the orchestrator
(src/core/search.py lines 38-43 with the name constants of
x1337.py, piratebay.py and rarbg.py). -/
def sourceNames : List String := ["1337x", "TPB", "RARBG"]

/-- Event trace of SearchOrchestrator.search_streaming_iter: first one
loading update per registered source, then, in the nondeterministic
completion order of the per-source tasks (a permutation of the sources),
the single terminal update each task put on the queue; the iterator stops
once it has consumed one terminal update per source.  The callback variant
search_streaming delivers the same trace through the callback. -/
def streamTrace (names : List String)
    (outcome : String → Except String (List TorrentResult))
    (order : List String) : List SearchUpdate :=
  names.map loadingUpdate ++ order.map (fun n => terminalUpdate n (outcome n))

/-- An update is terminal when it is a done or an error update. -/
def isTerminal (u : SearchUpdate) : Bool :=
  u.status == "done" || u.status == "error"

/-- Terminal update belonging to the named source. -/
def isTerminalFor (n : String) (u : SearchUpdate) : Bool :=
  isTerminal u && u.source == n

/-! ## Abstract parsed documents (the BeautifulSoup collaborator) -/

/-- Abstract parsed HTML element.  The structural-query collaborator
(select, select_one, find_parent("a"), find("a")) is carried by the element
itself: each concrete fixture supplies the select function; tag is the
BeautifulSoup .name, textRaw is .text, textStripped is
get_text(strip=True). -/
inductive Elem where
  | mk (tag : String)
       (attrs : List (String × String))
       (textRaw : String)
       (textStripped : String)
       (select : String → List Elem)
       (parentAnchor : Option Elem)
       (childAnchor : Option Elem)

/-- The element tag name (BeautifulSoup .name). -/
def Elem.tag : Elem → String
  | .mk t _ _ _ _ _ _ => t

/-- The element attributes. -/
def Elem.attrs : Elem → List (String × String)
  | .mk _ a _ _ _ _ _ => a

/-- The .text property. -/
def Elem.textRaw : Elem → String
  | .mk _ _ t _ _ _ _ => t

/-- get_text(strip=True). -/
def Elem.textStripped : Elem → String
  | .mk _ _ _ t _ _ _ => t

/-- select(selector): all matches, in document order. -/
def Elem.select : Elem → String → List Elem
  | .mk _ _ _ _ s _ _, sel => s sel

/-- find_parent("a"). -/
def Elem.parentAnchor : Elem → Option Elem
  | .mk _ _ _ _ _ p _ => p

/-- find("a"). -/
def Elem.childAnchor : Elem → Option Elem
  | .mk _ _ _ _ _ _ c => c

/-- select_one(selector) is the first match of select. -/
def Elem.selectOne (e : Elem) (sel : String) : Option Elem :=
  (e.select sel).head?

/-- Attribute lookup, the BeautifulSoup get(key) with None default. -/
def Elem.attr (e : Elem) (k : String) : Option String :=
  (e.attrs.find? (fun p => p.1 == k)).map Prod.snd

/-- Attribute lookup with a default, the BeautifulSoup get(key, default). -/
def Elem.attrD (e : Elem) (k d : String) : String :=
  (e.attr k).getD d

/-! ## src/core/analyzer/validator.py -/

/-- ValidationResult dataclass from src/core/analyzer/validator.py. -/
structure ValidationResult where
  success : Bool
  results_found : Nat := 0
  has_detail_links : Bool := false
  has_magnets : Bool := false
  sample_titles : Option (List String) := none
  error : Option String := none
deriving Repr, DecidableEq

/-- The title a validated item contributes to sample_titles: the title
selector must match and its stripped text must be truthy (non-empty). -/
def itemTitle (cfg : SiteConfig) (item : Elem) : Option String :=
  match item.selectOne cfg.selectors.title with
  | none => none
  | some te => if te.textStripped = "" then none else some te.textStripped

/-- The has_detail_links contribution of one item (validator lines 52-64):
only items with a truthy title are examined; the title element being an
anchor with a truthy href wins, otherwise the configured title_link
selector is consulted. -/
def itemDetailLink (cfg : SiteConfig) (item : Elem) : Bool :=
  match item.selectOne cfg.selectors.title with
  | none => false
  | some te =>
    if te.textStripped = "" then false
    else if te.tag = "a" ∧ te.attrD "href" "" ≠ "" then true
    else
      match cfg.selectors.title_link with
      | some tl =>
        match item.selectOne tl with
        | some le => le.attrD "href" "" ≠ ""
        | none => false
      | none => false

/-- The has_magnets contribution of one item (validator lines 66-69). -/
def itemMagnet (cfg : SiteConfig) (item : Elem) : Bool :=
  match item.selectOne cfg.selectors.magnet with
  | some me => (me.attrD "href" "").startsWith "magnet:"
  | none => false

/-- validate_config from src/core/analyzer/validator.py lines 24-88.  The
URL render plus fetch plus document parse are the fetch collaborator; its
error case covers the two exception arms of the source (both produce a
failure result carrying the exception text). -/
def validate_config (cfg : SiteConfig) (fetch : Except String Elem) : ValidationResult :=
  match fetch with
  | .error e => { success := false, error := some ("Network error: " ++ e) }
  | .ok soup =>
    let items := soup.select cfg.selectors.result_item
    if items.isEmpty then
      { success := false,
        error := some ("No results found with selector " ++ sqch ++ cfg.selectors.result_item ++ sqch) }
    else if ((items.take 5).filterMap (itemTitle cfg)).isEmpty then
      { success := false,
        error := some ("Could not extract titles with selector " ++ sqch ++ cfg.selectors.title ++ sqch) }
    else
      { success := true,
        results_found := items.length,
        has_detail_links := (items.take 5).any (itemDetailLink cfg),
        has_magnets := (items.take 5).any (itemMagnet cfg),
        sample_titles := some ((items.take 5).filterMap (itemTitle cfg)) }

/-- C7 fixture: the validated configuration. -/
def c7Config : SiteConfig :=
  { name := "C"
    base_url := "http://c.x"
    search := { url_template := "{base_url}/?s={query}" }
    selectors := { result_item := ".r", title := ".t" } }

/-- C7 fixture: a result item whose title selector yields an anchor with a
non-empty title. -/
def c7Item : Elem :=
  Elem.mk "div" [] "" ""
    (fun sel => if sel == ".t" then [Elem.mk "a" [("href", "/d/1")] "Alpha" "Alpha" (fun _ => []) none none] else [])
    none none

/-- C7 fixture: a results page with three matching items. -/
def c7Soup : Elem :=
  Elem.mk "html" [] "" ""
    (fun sel => if sel == ".r" then [c7Item, c7Item, c7Item] else [])
    none none

/-! ## Theorems -/

/-! ## Theorems -/

/-- Python str.split() with no argument: split on whitespace runs,
discarding empty fields (helper, structural on the character list). -/
def splitWsGo : List Char → List Char → List String
  | [], acc => if acc.isEmpty then [] else [String.mk acc.reverse]
  | c :: rest, acc =>
    if isPySpace c then
      if acc.isEmpty then splitWsGo rest []
      else String.mk acc.reverse :: splitWsGo rest []
    else splitWsGo rest (c :: acc)

/-- Python str.split() with no argument. -/
def pySplitWs (s : String) : List String := splitWsGo s.data []

/-- Python " ".join(l). -/
def joinSpace : List String → String
  | [] => ""
  | [x] => x
  | x :: rest => x ++ " " ++ joinSpace rest

/-- Python str.isdigit() on the ASCII strings involved here: non-empty and
all characters decimal digits. -/
def pyIsDigit (s : String) : Bool := !s.data.isEmpty && s.data.all Char.isDigit

/-- Python int() applied to a stripped string: optional sign, then decimal
digits; none models the ValueError raised on anything else. -/
def pyInt (s : String) : Option Int :=
  match s.data with
  | [] => none
  | '-' :: rest =>
    if !rest.isEmpty && rest.all Char.isDigit then some (-(digitsVal rest : Int)) else none
  | '+' :: rest =>
    if !rest.isEmpty && rest.all Char.isDigit then some ((digitsVal rest : Int)) else none
  | l => if l.all Char.isDigit then some ((digitsVal l : Int)) else none

/-! ## src/core/sources/x1337.py -/

/-- The seeders / leechers cell of an 1337x row: int(text) when the
stripped cell text isdigit(), else 0 (x1337.py lines 36-45). -/
def x1337Count (c : Elem) : Int :=
  if pyIsDigit (pyStrip c.textRaw) then (digitsVal (pyStrip c.textRaw).data : Int) else 0

/-- One row of the 1337x result table (x1337.py lines 25-59).  ok none is
a continue (short row, missing title link); error is an exception the row
parsing can raise (KeyError when the title anchor has no href, ValueError
from parse_size), which the outer except catches after the rows parsed so
far were kept. -/
def x1337ParseRow (row : Elem) : Except Unit (Option TorrentResult) :=
  match row.select "td" with
  | c0 :: c1 :: c2 :: _ :: c4 :: _ =>
    match c0.selectOne "a:nth-of-type(2)" with
    | none => Except.ok none
    | some title_link =>
      match title_link.attr "href" with
      | none => Except.error ()
      | some href =>
        match (match (pySplitWs (pyStrip c4.textRaw)).take 2 with
               | [] => some 0
               | st => parse_size (joinSpace st)) with
        | none => Except.error ()
        | some size =>
          Except.ok (some
            { title := pyStrip title_link.textRaw
              seeders := x1337Count c1
              leechers := x1337Count c2
              size := size
              source := "1337x"
              magnet_link := none
              detail_url := some ("https://1337x.to" ++ href) })
  | _ => Except.ok none

/-- The row loop of X1337Source.search: append parsed rows until a row
raises; the raised exception is caught by the outer except, keeping the
rows collected before it. -/
def x1337Collect : List Elem → List TorrentResult
  | [] => []
  | row :: rest =>
    match x1337ParseRow row with
    | .error _ => []
    | .ok none => x1337Collect rest
    | .ok (some r) => r :: x1337Collect rest

/-- X1337Source.search from src/core/sources/x1337.py lines 14-62, with
the URL build plus GET plus raise_for_status plus document parse given as
the fetch collaborator: a transport error yields the empty list, otherwise
at most 30 tbody rows are parsed. -/
def x1337_search (fetch : Except String Elem) : List TorrentResult :=
  match fetch with
  | .error _ => []
  | .ok soup => x1337Collect ((soup.select "tbody tr").take 30)

/-! ## src/core/sources/dynamic.py -/

/-- The detail URL of a parsed item (dynamic.py lines 59-76): the link
element is the configured title_link match (or the title element itself);
an anchor with a truthy href resolves against base_url, a non-anchor falls
back to find_parent("a") or find("a"). -/
def dynDetailUrl (cfg : SiteConfig) (urljoin : String → String → String)
    (title_elem : Elem) : Elem → Option String := fun item =>
  match (match cfg.selectors.title_link with
         | some tl => item.selectOne tl
         | none => some title_elem) with
  | none => none
  | some link_elem =>
    if link_elem.tag = "a" then
      if link_elem.attrD "href" "" ≠ "" then
        some (urljoin cfg.base_url (link_elem.attrD "href" ""))
      else none
    else
      match link_elem.parentAnchor.orElse (fun _ => link_elem.childAnchor) with
      | some a_tag =>
        if a_tag.attrD "href" "" ≠ "" then
          some (urljoin cfg.base_url (a_tag.attrD "href" ""))
        else none
      | none => none

/-- The seeders / leechers of a parsed item (dynamic.py lines 85-103):
optional selector, int(text) with the ValueError swallowed to keep 0. -/
def dynCount (item : Elem) : Option String → Int
  | some sel =>
    match item.selectOne sel with
    | some e => (pyInt e.textStripped).getD 0
    | none => 0
  | none => 0

/-- The inline magnet of a parsed item (dynamic.py lines 105-111). -/
def dynMagnet (cfg : SiteConfig) (item : Elem) : Option String :=
  match item.selectOne cfg.selectors.magnet with
  | some me =>
    if (me.attrD "href" "").startsWith "magnet:" then some (me.attrD "href" "") else none
  | none => none

/-- DynamicSource._parse_result from src/core/sources/dynamic.py lines
46-121.  ok none is a skipped item (missing or empty title); error is the
uncaught ValueError parse_size can raise on a malformed size text. -/
def dynParseResult (cfg : SiteConfig) (urljoin : String → String → String)
    (item : Elem) : Except Unit (Option TorrentResult) :=
  match item.selectOne cfg.selectors.title with
  | none => Except.ok none
  | some title_elem =>
    if title_elem.textStripped = "" then Except.ok none
    else
      match (match cfg.selectors.size with
             | some ssel =>
               match item.selectOne ssel with
               | some se => parse_size se.textStripped
               | none => some 0
             | none => some 0) with
      | none => Except.error ()
      | some size =>
        Except.ok (some
          { title := title_elem.textStripped
            seeders := dynCount item cfg.selectors.seeders
            leechers := dynCount item cfg.selectors.leechers
            size := size
            source := cfg.name
            magnet_link := dynMagnet cfg item
            detail_url := dynDetailUrl cfg urljoin title_elem item })

/-- The item loop of DynamicSource.search: append parsed items until one
raises; the raised exception is caught by the outer except, keeping the
items collected before it. -/
def dynCollect (cfg : SiteConfig) (urljoin : String → String → String) :
    List Elem → List TorrentResult
  | [] => []
  | item :: rest =>
    match dynParseResult cfg urljoin item with
    | .error _ => []
    | .ok none => dynCollect cfg urljoin rest
    | .ok (some r) => r :: dynCollect cfg urljoin rest

/-- DynamicSource.search from src/core/sources/dynamic.py lines 20-44,
with the URL render plus GET plus raise_for_status plus document parse
given as the fetch collaborator: a transport error yields the empty list,
otherwise at most 30 result_item matches are parsed. -/
def dyn_search (cfg : SiteConfig) (urljoin : String → String → String)
    (fetch : Except String Elem) : List TorrentResult :=
  match fetch with
  | .error _ => []
  | .ok soup => dynCollect cfg urljoin ((soup.select cfg.selectors.result_item).take 30)

/-! ## Theorems -/

/-- C3 fixture: a dynamic-site configuration with a size selector. -/
def c3Config : SiteConfig :=
  { name := "Dyn"
    base_url := "http://d.x"
    search := { url_template := "{base_url}/?s={query}" }
    selectors := { result_item := ".r", title := ".t", size := some ".s" } }

/-- C3 fixture: an item that parses cleanly (title A, size 1 GB). -/
def c3Item1 : Elem :=
  Elem.mk "div" [] "" ""
    (fun sel =>
      if sel == ".t" then [Elem.mk "span" [] "A" "A" (fun _ => []) none none]
      else if sel == ".s" then [Elem.mk "span" [] "1 GB" "1 GB" (fun _ => []) none none]
      else [])
    none none

/-- C3 fixture: an item whose size text makes parse_size raise (the size
regex matches "1.2.3" and float("1.2.3") is a ValueError). -/
def c3Item2 : Elem :=
  Elem.mk "div" [] "" ""
    (fun sel =>
      if sel == ".t" then [Elem.mk "span" [] "B" "B" (fun _ => []) none none]
      else if sel == ".s" then [Elem.mk "span" [] "1.2.3 GB" "1.2.3 GB" (fun _ => []) none none]
      else [])
    none none

/-- C3 fixture: a results page with a clean item followed by the item that
raises during parsing. -/
def c3Soup : Elem :=
  Elem.mk "html" [] "" ""
    (fun sel => if sel == ".r" then [c3Item1, c3Item2] else [])
    none none

/-- C9 fixture: a dynamic-site configuration with a seeders selector. -/
def c9Config : SiteConfig :=
  { name := "Dyn"
    base_url := "http://d.x"
    search := { url_template := "{base_url}/?s={query}" }
    selectors := { result_item := ".r", title := ".t", seeders := some ".se" } }

/-- C9 fixture: an item whose seeders selector text is the negative
integer literal -5, which int() parses. -/
def c9Item : Elem :=
  Elem.mk "div" [] "" ""
    (fun sel =>
      if sel == ".t" then [Elem.mk "span" [] "A" "A" (fun _ => []) none none]
      else if sel == ".se" then [Elem.mk "span" [] "-5" "-5" (fun _ => []) none none]
      else [])
    none none

/-- C9 fixture: a results page with the negative-seeders item. -/
def c9Soup : Elem :=
  Elem.mk "html" [] "" ""
    (fun sel => if sel == ".r" then [c9Item] else [])
    none none

/-- C9 fixture: a well-formed 1337x result row (five cells, second anchor
in the first cell carries the title). -/
def c9Row : Elem :=
  Elem.mk "tr" [] "" ""
    (fun sel =>
      if sel == "td" then
        [Elem.mk "td" [] "" ""
           (fun s2 => if s2 == "a:nth-of-type(2)"
             then [Elem.mk "a" [("href", "/t/1")] "B" "B" (fun _ => []) none none] else [])
           none none,
         Elem.mk "td" [] "7" "7" (fun _ => []) none none,
         Elem.mk "td" [] "3" "3" (fun _ => []) none none,
         Elem.mk "td" [] "" "" (fun _ => []) none none,
         Elem.mk "td" [] "1 GB" "1 GB" (fun _ => []) none none]
      else [])
    none none

/-- C9 fixture: a 1337x results page with one row. -/
def c9XSoup : Elem :=
  Elem.mk "html" [] "" ""
    (fun sel => if sel == "tbody tr" then [c9Row] else [])
    none none

/-! ## Theorems -/

/-! ## Theorems -/

/-! ## src/core/analyzer/detectors.py -/

/-- SearchPattern dataclass from src/core/analyzer/detectors.py.  The
float confidences are modelled as exact rationals (mkRat n 10 is the
value the float literal 0.n denotes up to rounding; all comparisons made
on them are decided identically). -/
structure SearchPattern where
  url_template : String
  method : String := "GET"
  confidence : ℚ := 0
deriving Repr, DecidableEq

/-- ResultStructure dataclass from src/core/analyzer/detectors.py. -/
structure ResultStructure where
  result_item : String
  title : String
  title_link : Option String := none
  confidence : ℚ := 0
deriving Repr, DecidableEq

/-- The search_indicators keyword list (detectors.py line 46). -/
def searchIndicators : List String := ["s", "q", "query", "search", "term", "keyword"]

/-- The text-input selector of detect_search_patterns (detectors.py
line 39). -/
def textInputSelector : String :=
  "input[type=" ++ sqch ++ "text" ++ sqch ++ "], input[type=" ++ sqch ++ "search" ++ sqch ++ "], input:not([type])"

/-- The candidates one form contributes (detectors.py lines 34-68): every
named text input whose name or id contains a search indicator (or any
named text input when the form has exactly one text input) yields a
url_template built from the joined form action. -/
def formPatterns (base_url : String) (urljoin : String → String → String)
    (form : Elem) : List SearchPattern :=
  let text_inputs := form.select textInputSelector
  text_inputs.filterMap (fun inp =>
    if inp.attrD "name" "" = "" then none
    else
      let is_search := searchIndicators.any (fun ind =>
        pyIn ind (pyLower (inp.attrD "name" "")) || pyIn ind (pyLower (inp.attrD "id" "")))
      if is_search ∨ text_inputs.length = 1 then
        some { url_template :=
                 (if form.attrD "action" "" ≠ ""
                  then urljoin base_url (form.attrD "action" "")
                  else base_url) ++ "?" ++ inp.attrD "name" "" ++ "={query}"
               method := pyUpper (form.attrD "method" "GET")
               confidence := if is_search then mkRat 8 10 else mkRat 5 10 }
      else none)

/-- The five fixed generic url guesses (detectors.py lines 72-78). -/
def commonPatterns (base_url : String) : List String :=
  [base_url ++ "/?s={query}",
   base_url ++ "/?q={query}",
   base_url ++ "/search?q={query}",
   base_url ++ "/search/{query}",
   base_url ++ "/search?query={query}"]

/-- detect_search_patterns from src/core/analyzer/detectors.py lines
28-91: form-derived candidates, then the generic guesses at confidence
0.3 skipping duplicates of a form template, sorted by confidence
descending (Python sorted is stable). -/
def detect_search_patterns (soup : Elem) (base_url : String)
    (urljoin : String → String → String) : List SearchPattern :=
  let formPats := (soup.select "form").flatMap (formPatterns base_url urljoin)
  let extras := (commonPatterns base_url).filterMap (fun p =>
    if formPats.any (fun q => q.url_template == p) then none
    else some { url_template := p, method := "GET", confidence := mkRat 3 10 })
  (formPats ++ extras).insertionSort (fun a b => b.confidence ≤ a.confidence)

/-- The six article title probes (detectors.py line 122). -/
def articleTitleSelectors : List String :=
  ["h2 a", "h3 a", ".entry-title a", ".post-title a", "h2", "h3"]

/-- The seven card container selectors (detectors.py lines 137-145). -/
def cardSelectors : List String :=
  [".card", ".result", ".item", ".post", ".entry",
   "[class*=" ++ sqch ++ "result" ++ sqch ++ "]",
   "[class*=" ++ sqch ++ "item" ++ sqch ++ "]"]

/-- The seven card title probes (detectors.py line 151). -/
def cardTitleSelectors : List String :=
  ["h2 a", "h3 a", "h4 a", ".title a", "a.title", "h2", "h3"]

/-- Strategy 1 (detectors.py lines 98-115): at least 3 tbody rows and one
of the first 3 rows carrying a link yields the single generic table
candidate at confidence 0.7. -/
def tableStructures (soup : Elem) : List ResultStructure :=
  let tbody_rows := soup.select "tbody tr"
  if 3 ≤ tbody_rows.length then
    match (tbody_rows.take 3).find? (fun row => !(row.select "a").isEmpty) with
    | some _ =>
      [{ result_item := "tbody tr", title := "a", title_link := none, confidence := mkRat 7 10 }]
    | none => []
  else []

/-- The candidate one article contributes (detectors.py lines 120-134):
the first title probe with non-empty text, at confidence 0.8; title_link
is the probe itself when it contains the letter a. -/
def articleStructure (article : Elem) : Option ResultStructure :=
  (articleTitleSelectors.find? (fun sel =>
    match article.selectOne sel with
    | some te => te.textStripped ≠ ""
    | none => false)).map (fun sel =>
      { result_item := "article", title := sel,
        title_link := if pyIn "a" sel then some sel else none,
        confidence := mkRat 8 10 })

/-- Strategy 2 (detectors.py lines 117-134): at least 2 articles; each of
the first 2 contributes its candidate (the inner probe loop breaks, the
outer article loop does not). -/
def articleStructures (soup : Elem) : List ResultStructure :=
  let articles := soup.select "article"
  if 2 ≤ articles.length then (articles.take 2).filterMap articleStructure
  else []

/-- The candidate one card contributes (detectors.py lines 149-163). -/
def cardStructure (card_sel : String) (card : Elem) : Option ResultStructure :=
  (cardTitleSelectors.find? (fun sel =>
    match card.selectOne sel with
    | some te => te.textStripped ≠ ""
    | none => false)).map (fun sel =>
      { result_item := card_sel, title := sel,
        title_link := if pyIn "a" sel then some sel else none,
        confidence := mkRat 6 10 })

/-- Strategy 3 (detectors.py lines 136-164): the first card selector with
at least 3 matches wins (the loop breaks after it); each of its first 2
cards contributes a candidate at confidence 0.6. -/
def cardStructures (soup : Elem) : List ResultStructure :=
  match cardSelectors.find? (fun cs => 3 ≤ (soup.select cs).length) with
  | some cs => ((soup.select cs).take 2).filterMap (cardStructure cs)
  | none => []

/-- Strategy 4 (detectors.py lines 166-179): at least 5 list items and one
of the first 3 carrying a link yields the single li candidate at
confidence 0.4. -/
def listStructures (soup : Elem) : List ResultStructure :=
  let list_items := soup.select "ul li, ol li"
  if 5 ≤ list_items.length then
    match (list_items.take 3).find? (fun it => !(it.select "a").isEmpty) with
    | some _ => [{ result_item := "li", title := "a", confidence := mkRat 4 10 }]
    | none => []
  else []

/-- detect_result_structure from src/core/analyzer/detectors.py lines
94-181: the four strategies contribute to one list, sorted by confidence
descending (stable). -/
def detect_result_structure (soup : Elem) : List ResultStructure :=
  (tableStructures soup ++ articleStructures soup ++ cardStructures soup ++ listStructures soup).insertionSort
    (fun a b => b.confidence ≤ a.confidence)

/-- detect_magnet_selector from src/core/analyzer/detectors.py lines
184-193: both branches return the same fixed selector. -/
def detect_magnet_selector (soup : Elem) : String :=
  if !(soup.select magnetSelectorDefault).isEmpty then magnetSelectorDefault
  else magnetSelectorDefault

/-! ## Theorems -/

/-! ## src/core/analyzer/analyzer.py -/

/-- Replacement of every occurrence of a pattern, left to right
(helper for str.replace and str.format, fuel-indexed for termination;
the fuel is the input length, enough since every step consumes at least
one character). -/
def replaceGo : Nat → List Char → List Char → List Char → List Char
  | 0, _, _, _ => []
  | _ + 1, [], _, _ => []
  | fuel + 1, c :: rest, pat, rep =>
    if pat.isPrefixOf (c :: rest) then
      rep ++ replaceGo fuel (List.drop pat.length (c :: rest)) pat rep
    else c :: replaceGo fuel rest pat rep

/-- Python str.replace for a non-empty pattern. -/
def pyReplace (s pat rep : String) : String :=
  if pat = "" then s
  else String.mk (replaceGo s.data.length s.data pat.data rep.data)

/-- str.format with the named placeholders base_url and query, on the
templates used here (the placeholder text never reappears in a
substituted value). -/
def renderTemplate (t base_url query : String) : String :=
  pyReplace (pyReplace t "{base_url}" base_url) "{query}" query

/-- AnalysisResult dataclass from src/core/analyzer/analyzer.py (the
attempt log is not modelled; nothing proved here concerns it). -/
structure AnalysisResult where
  success : Bool
  config : Option SiteConfig := none
  validation : Option ValidationResult := none
  error : Option String := none

/-- The SiteConfig synthesized for one (pattern, structure) pair
(analyzer.py lines 115-129). -/
def buildConfig (base_url site_name : String) (p : SearchPattern) (ms : String)
    (st : ResultStructure) : SiteConfig :=
  { name := site_name
    base_url := base_url
    search := { url_template := p.url_template, method := p.method }
    selectors := { result_item := st.result_item, title := st.title,
                   title_link := st.title_link, magnet := ms }
    patterns := {} }

/-- The inner structure loop of SiteAnalyzer.analyze (analyzer.py lines
108-144): synthesize a config per structure, in order, and return on the
first validation success. -/
def tryStructures (base_url site_name : String) (p : SearchPattern)
    (results_soup : Elem) (validate : SiteConfig → ValidationResult) :
    List ResultStructure → Option (SiteConfig × ValidationResult)
  | [] => none
  | st :: rest =>
    let ms := if detect_magnet_selector results_soup = "" then magnetSelectorDefault
              else detect_magnet_selector results_soup
    let config := buildConfig base_url site_name p ms st
    if (validate config).success then some (config, validate config)
    else tryStructures base_url site_name p results_soup validate rest

/-- The outer pattern loop of SiteAnalyzer.analyze (analyzer.py lines
83-150): render and fetch each pattern; a fetch failure or an empty
structure detection advances to the next pattern; the first validation
success short-circuits the whole analysis. -/

def tryPatterns (base_url site_name test_query : String)
    (fetchSearch : String → Except String Elem)
    (validate : SiteConfig → ValidationResult) :
    List SearchPattern → AnalysisResult
  | [] => { success := false, error := some "Could not find a working configuration" }
  | p :: rest =>
    match fetchSearch (renderTemplate p.url_template base_url (pyReplace test_query " " "+")) with
    | .error _ => tryPatterns base_url site_name test_query fetchSearch validate rest
    | .ok results_soup =>
      match detect_result_structure results_soup with
      | [] => tryPatterns base_url site_name test_query fetchSearch validate rest
      | sts =>
        match tryStructures base_url site_name p results_soup validate sts with
        | some (config, validation) =>
          { success := true, config := some config, validation := some validation }
        | none => tryPatterns base_url site_name test_query fetchSearch validate rest

/-- SiteAnalyzer.analyze from src/core/analyzer/analyzer.py lines 43-150,
from the point after URL normalization (base_url and site_name are the
values the code derives from the url argument).  Collaborators: fetchHome
is the homepage fetch, fetchSearch maps a rendered search URL to its fetch
outcome, validate is validate_config applied to a synthesized config (its
own fetch is inside it), urljoin is urllib.parse.urljoin. -/
def analyzeFrom (base_url site_name test_query : String)
    (urljoin : String → String → String)
    (fetchHome : Except String Elem)
    (fetchSearch : String → Except String Elem)
    (validate : SiteConfig → ValidationResult) : AnalysisResult :=
  match fetchHome with
  | .error e => { success := false, error := some ("Failed to fetch site: " ++ e) }
  | .ok soup =>
    match detect_search_patterns soup base_url urljoin with
    | [] => { success := false, error := some "Could not detect search functionality" }
    | pats => tryPatterns base_url site_name test_query fetchSearch validate pats

/-! ## Theorems -/

/-- C8 fixture: a homepage with no forms, so only the five generic
guesses are detected. -/
def c8Home : Elem := Elem.mk "html" [] "" "" (fun _ => []) none none

/-- C8 fixture: the title anchor inside each article. -/
def c8TitleElem : Elem :=
  Elem.mk "a" [("href", "/post/1")] "T" "T" (fun _ => []) none none

/-- C8 fixture: an article whose h2 a probe yields a non-empty title. -/
def c8Art : Elem :=
  Elem.mk "article" [] "" ""
    (fun sel => if sel == "h2 a" then [c8TitleElem] else [])
    none none

/-- C8 fixture: a list item carrying an anchor. -/
def c8Li : Elem :=
  Elem.mk "li" [] "" ""
    (fun sel => if sel == "a" then [Elem.mk "a" [("href", "/x")] "L" "L" (fun _ => []) none none] else [])
    none none

/-- C8 fixture: a results page where both the article strategy (two
articles with h2 a titles, confidence 0.8) and the list strategy (five
list items with anchors, confidence 0.4) fire, and no table or card
strategy does. -/
def c8Results : Elem :=
  Elem.mk "html" [] "" ""
    (fun sel =>
      if sel == "article" then [c8Art, c8Art]
      else if sel == "ul li, ol li" then [c8Li, c8Li, c8Li, c8Li, c8Li]
      else [])
    none none

/-- C8: the article-based candidate detection yields. -/
def c8ArtCand : ResultStructure :=
  { result_item := "article", title := "h2 a", title_link := some "h2 a",
    confidence := mkRat 8 10 }

/-- C8: the list-based candidate detection yields. -/
def c8LiCand : ResultStructure :=
  { result_item := "li", title := "a", title_link := none, confidence := mkRat 4 10 }

/-- C8: the first detected search pattern on the fixture homepage. -/
def c8P1 : SearchPattern :=
  { url_template := "http://fx.example/?s={query}", method := "GET", confidence := mkRat 3 10 }

/-- C8: the remaining generic search patterns after the first. -/
def c8RestPatterns : List SearchPattern :=
  [{ url_template := "http://fx.example/?q={query}", method := "GET", confidence := mkRat 3 10 },
   { url_template := "http://fx.example/search?q={query}", method := "GET", confidence := mkRat 3 10 },
   { url_template := "http://fx.example/search/{query}", method := "GET", confidence := mkRat 3 10 },
   { url_template := "http://fx.example/search?query={query}", method := "GET", confidence := mkRat 3 10 }]

/-- C8: the config the analysis synthesizes for the article candidate. -/
def c8ArticleConfig : SiteConfig :=
  buildConfig "http://fx.example" "Fx" c8P1 magnetSelectorDefault c8ArtCand

/-- C8: the config the analysis would synthesize for the list candidate. -/
def c8ListConfig : SiteConfig :=
  buildConfig "http://fx.example" "Fx" c8P1 magnetSelectorDefault c8LiCand

/-! ## Theorems -/

/-! ## Theorems -/

theorem health_eq_healthI (r : TorrentResult) :
    r.health = healthI r.seeders r.leechers := by
  unfold TorrentResult.health healthI
  have hM : (0 : ℚ) < ((max r.leechers 1 : Int) : ℚ) := by
    have h1 : (1 : Int) ≤ max r.leechers 1 := le_max_right _ _
    exact_mod_cast lt_of_lt_of_le Int.zero_lt_one h1
  have h2 : ((2 : ℚ) < (r.seeders : ℚ) / ((max r.leechers 1 : Int) : ℚ)) ↔
      (2 * max r.leechers 1 < r.seeders) := by
    rw [lt_div_iff₀ hM]
    constructor
    · intro h; exact_mod_cast h
    · intro h; exact_mod_cast h
  have h1 : ((1 : ℚ) < (r.seeders : ℚ) / ((max r.leechers 1 : Int) : ℚ)) ↔
      (max r.leechers 1 < r.seeders) := by
    rw [lt_div_iff₀ hM, one_mul]
    constructor
    · intro h; exact_mod_cast h
    · intro h; exact_mod_cast h
  simp only [h2, h1]

theorem healthI_mono (l s t : Int) (hs : 0 ≤ s) (hst : s ≤ t) :
    healthRank (healthI s l) ≤ healthRank (healthI t l) := by
  have hM : (1 : Int) ≤ max l 1 := le_max_right _ _
  unfold healthI
  split_ifs <;> simp_all [healthRank] <;> omega

theorem pyIn_append_trackerParams (m : String) :
    pyIn "&tr=" (m ++ trackerParams) = true := by
  have h1 : "&tr=".data <+: trackerParams.data := by decide
  have h2 : "&tr=".data <:+: (m ++ trackerParams).data := by
    rw [String.data_append]
    exact (h1.isInfix).trans (List.suffix_append m.data trackerParams.data).isInfix
  exact decide_eq_true h2

/-- C4: for every Result (with the non-negative seeders the data model
prescribes), health is "dead" exactly when seeders is zero, and for a fixed
leechers value the health rank (dead < poor < fair < good < excellent) is
monotone non-decreasing in seeders. -/
theorem health_dead_iff_and_mono :
    (∀ r : TorrentResult, r.health = "dead" ↔ r.seeders = 0) ∧
    (∀ r r' : TorrentResult, r.leechers = r'.leechers → 0 ≤ r.seeders →
      r.seeders ≤ r'.seeders → healthRank r.health ≤ healthRank r'.health) := by
  constructor
  · intro r
    rw [health_eq_healthI]
    unfold healthI
    split_ifs <;> simp_all
  · intro r r' hl h0 hle
    rw [health_eq_healthI, health_eq_healthI, hl]
    exact healthI_mono r'.leechers _ _ h0 hle

/-- Witness for C4 at concrete inputs: a zero-seeder result is dead, and a
result with 6 seeders ranks no higher than one with 30 seeders at the same
leechers value. -/
theorem health_dead_iff_and_mono_witness :
    (({ title := "a", seeders := 0, leechers := 3, size := 0, source := "s" } : TorrentResult).health = "dead"
      ↔ ({ title := "a", seeders := 0, leechers := 3, size := 0, source := "s" } : TorrentResult).seeders = 0) ∧
    healthRank ({ title := "a", seeders := 6, leechers := 3, size := 0, source := "s" } : TorrentResult).health ≤
      healthRank ({ title := "a", seeders := 30, leechers := 3, size := 0, source := "s" } : TorrentResult).health :=
  ⟨health_dead_iff_and_mono.1 _,
   health_dead_iff_and_mono.2 _ _ rfl (by decide) (by decide)⟩

/-- C5: decorating a magnet with the fixed tracker list is idempotent, and
it is a no-op whenever a tracker parameter (the substring "&tr=") is
already present in the magnet. -/
theorem add_trackers_idem_and_noop :
    (∀ m : String, add_trackers (add_trackers m) = add_trackers m) ∧
    (∀ m : String, pyIn "&tr=" m = true → add_trackers m = m) := by
  constructor
  · intro m
    by_cases h : (m = "" ∨ pyIn "&tr=" m = true)
    · have hm : add_trackers m = m := by rw [add_trackers, if_pos h]
      rw [hm, hm]
    · have hm : add_trackers m = m ++ trackerParams := by rw [add_trackers, if_neg h]
      rw [hm, add_trackers, if_pos (Or.inr (pyIn_append_trackerParams m))]
  · intro m h
    rw [add_trackers, if_pos (Or.inr h)]

/-- Witness for C5 at concrete magnets: decorating twice equals decorating
once, and a magnet already carrying a tracker parameter is unchanged. -/
theorem add_trackers_idem_and_noop_witness :
    add_trackers (add_trackers "magnet:?xt=urn:btih:abc") = add_trackers "magnet:?xt=urn:btih:abc" ∧
    add_trackers "magnet:?xt=urn:btih:abc&tr=x" = "magnet:?xt=urn:btih:abc&tr=x" :=
  ⟨add_trackers_idem_and_noop.1 _,
   add_trackers_idem_and_noop.2 "magnet:?xt=urn:btih:abc&tr=x" (by decide)⟩

/-- C6 counterexample: on the input "1.2.3 GB" the size regex matches with
numeric group "1.2.3", and float("1.2.3") raises ValueError, which
parse_size does not catch (modelled as none), instead of returning 0. -/
theorem parse_size_raises_on_double_dot : parse_size "1.2.3 GB" = none := by decide

/-- C6 amended: parse_size is exact on well-formed size strings
(1.5 GB gives 1610612736), and on every input the size regex does not match
at all it returns 0 without raising (in particular "bogus" gives 0); when
the regex matches but the numeric group is not a valid float literal, the
ValueError of float() propagates. -/
theorem parse_size_spec :
    parse_size "1.5 GB" = some 1610612736 ∧
    parse_size "bogus" = some 0 ∧
    ∀ s : String, matchSize (pyStrip (pyUpper s)) = none → parse_size s = some 0 := by
  refine ⟨by decide, by decide, ?_⟩
  intro s h
  unfold parse_size
  rw [h]

/-- Witness for C6 amended at a concrete input: the regex does not match
"bogus" and parse_size returns 0 there. -/
theorem parse_size_spec_witness :
    matchSize (pyStrip (pyUpper "bogus")) = none ∧ parse_size "bogus" = some 0 :=
  ⟨by decide, parse_size_spec.2.2 "bogus" (by decide)⟩

/-- C10: serializing a SiteConfig to its dict and reading it back with any
key reproduces the config in every field, independently of the key. -/
theorem siteConfig_roundtrip :
    ∀ (k : String) (c : SiteConfig), SiteConfig.from_dict k c.to_dict = some c := by
  intro k c
  rfl

/-- C2 counterexample: with one non-failing source returning one result and
limit 0, the blocking search returns the empty list while the union of the
non-failing sources outputs is that one result, so the returned result set
does not equal the union. -/
theorem search_sync_truncates_counterexample :
    search_sync [Except.ok [{ title := "a", seeders := 1, leechers := 0, size := 0, source := "s" }]] 0 "seeders" = [] ∧
    survivors [Except.ok [{ title := "a", seeders := 1, leechers := 0, size := 0, source := "s" }]] =
      [{ title := "a", seeders := 1, leechers := 0, size := 0, source := "s" }] :=
  ⟨rfl, rfl⟩

/-- C2 amended: the blocking search returns at most limit results, every
returned result comes from a non-failing source, and whenever the limit is
at least the number of surviving results the returned list is a permutation
of (so has the same result set as) the union of the non-failing sources
outputs. -/
theorem search_sync_spec :
    ∀ (outcomes : List (Except String (List TorrentResult))) (limit : Nat) (sort_by : String),
      (search_sync outcomes limit sort_by).length ≤ limit ∧
      (∀ r ∈ search_sync outcomes limit sort_by, r ∈ survivors outcomes) ∧
      ((survivors outcomes).length ≤ limit →
        (search_sync outcomes limit sort_by).Perm (survivors outcomes)) := by
  intro outcomes limit sort_by
  refine ⟨List.length_take_le _ _, ?_, ?_⟩
  · intro r hr
    have h1 : r ∈ sortResults (survivors outcomes) sort_by := List.mem_of_mem_take hr
    unfold sortResults at h1
    split_ifs at h1 <;> exact (List.perm_insertionSort _ _).mem_iff.mp h1
  · intro hlen
    have hsortlen : (sortResults (survivors outcomes) sort_by).length = (survivors outcomes).length := by
      unfold sortResults
      split_ifs <;> exact (List.perm_insertionSort _ _).length_eq
    have htake : (sortResults (survivors outcomes) sort_by).take limit =
        sortResults (survivors outcomes) sort_by :=
      List.take_of_length_le (by rw [hsortlen]; exact hlen)
    rw [search_sync, htake]
    unfold sortResults
    split_ifs <;> exact List.perm_insertionSort _ _

/-- Witness for C2 amended at a concrete input: two sources, one failing;
limit 5 exceeds the single surviving result, so the returned list is a
permutation of the survivors and its length is at most 5. -/
theorem search_sync_spec_witness :
    (search_sync [Except.ok [{ title := "a", seeders := 1, leechers := 0, size := 0, source := "s" }], Except.error "boom"] 5 "seeders").length ≤ 5 ∧
    (search_sync [Except.ok [{ title := "a", seeders := 1, leechers := 0, size := 0, source := "s" }], Except.error "boom"] 5 "seeders").Perm
      (survivors [Except.ok [{ title := "a", seeders := 1, leechers := 0, size := 0, source := "s" }], Except.error "boom"]) :=
  ⟨(search_sync_spec _ 5 "seeders").1,
   (search_sync_spec _ 5 "seeders").2.2 (by decide)⟩

theorem isTerminal_terminalUpdate (n : String) (o : Except String (List TorrentResult)) :
    isTerminal (terminalUpdate n o) = true := by
  cases o <;> rfl

theorem isTerminalFor_terminalUpdate (m n : String) (o : Except String (List TorrentResult)) :
    isTerminalFor n (terminalUpdate m o) = (m == n) := by
  cases o <;> simp [isTerminalFor, isTerminal, terminalUpdate]

theorem filter_terminalFor_loading (n : String) (names : List String) :
    (names.map loadingUpdate).filter (isTerminalFor n) = [] := by
  induction names with
  | nil => rfl
  | cons a t ih =>
    simp only [List.map_cons, List.filter_cons]
    rw [if_neg (by simp [isTerminalFor, isTerminal, loadingUpdate])]
    exact ih

theorem countP_terminal_loading (names : List String) :
    (names.map loadingUpdate).countP isTerminal = 0 := by
  induction names with
  | nil => rfl
  | cons a t ih =>
    rw [List.map_cons, List.countP_cons_of_neg _ _ (by simp [isTerminal, loadingUpdate])]
    exact ih

theorem filter_terminalFor_terminals (n : String)
    (outcome : String → Except String (List TorrentResult)) (order : List String) :
    ((order.map (fun m => terminalUpdate m (outcome m))).filter (isTerminalFor n)).length =
      order.count n := by
  induction order with
  | nil => rfl
  | cons a t ih =>
    simp only [List.map_cons, List.filter_cons, isTerminalFor_terminalUpdate, List.count_cons]
    by_cases hab : a = n
    · rw [if_pos (by simp [hab]), List.length_cons, ih]
      simp [hab]
    · rw [if_neg (by simp [hab]), ih]
      simp [hab]

/-- C1: in every streaming search trace, the first N events are the loading
updates of the N registered sources; every announced source receives
exactly one terminal update (done or error), with no duplicates; and the
full trace carries exactly N terminal updates, so the stream completes only
after every per-source task has produced its terminal update. -/
theorem streaming_terminal_events :
    ∀ (names : List String) (outcome : String → Except String (List TorrentResult))
      (order : List String), names.Nodup → order.Perm names →
      (streamTrace names outcome order).take names.length = names.map loadingUpdate ∧
      (∀ n ∈ names, ((streamTrace names outcome order).filter (isTerminalFor n)).length = 1) ∧
      (streamTrace names outcome order).countP isTerminal = names.length ∧
      (streamTrace names outcome order).length = 2 * names.length := by
  intro names outcome order hnodup hperm
  refine ⟨?_, ?_, ?_, ?_⟩
  · rw [streamTrace, List.take_left' (List.length_map _ _)]
  · intro n hn
    rw [streamTrace, List.filter_append, filter_terminalFor_loading, List.nil_append,
      filter_terminalFor_terminals, hperm.count_eq, List.count_eq_one_of_mem hnodup hn]
  · rw [streamTrace, List.countP_append, countP_terminal_loading, Nat.zero_add,
      List.countP_map]
    have hall : ∀ m ∈ order, (isTerminal ∘ fun k => terminalUpdate k (outcome k)) m = true := by
      intro m _
      exact isTerminal_terminalUpdate m (outcome m)
    rw [List.countP_eq_length.mpr hall, hperm.length_eq]
  · rw [streamTrace, List.length_append, List.length_map, List.length_map,
      hperm.length_eq, Nat.two_mul]

/-- Witness for C1 at the concrete registry: the three registered sources,
a completion order different from the registration order, one source
failing; the loading prefix, the per-source terminal uniqueness and the
terminal count are all realized. -/
theorem streaming_terminal_events_witness :
    (sourceNames.Nodup ∧ (["RARBG", "1337x", "TPB"] : List String).Perm sourceNames) ∧
    ((streamTrace sourceNames (fun n => if n == "TPB" then Except.error "timeout" else Except.ok [])
        ["RARBG", "1337x", "TPB"]).take sourceNames.length = sourceNames.map loadingUpdate ∧
      (∀ n ∈ sourceNames, ((streamTrace sourceNames
        (fun n => if n == "TPB" then Except.error "timeout" else Except.ok [])
        ["RARBG", "1337x", "TPB"]).filter (isTerminalFor n)).length = 1) ∧
      (streamTrace sourceNames (fun n => if n == "TPB" then Except.error "timeout" else Except.ok [])
        ["RARBG", "1337x", "TPB"]).countP isTerminal = sourceNames.length ∧
      (streamTrace sourceNames (fun n => if n == "TPB" then Except.error "timeout" else Except.ok [])
        ["RARBG", "1337x", "TPB"]).length = 2 * sourceNames.length) :=
  ⟨⟨by decide, by decide⟩,
   streaming_terminal_events sourceNames _ _ (by decide) (by decide)⟩

/-- C7: with a successful fetch, a result_item selector matching zero
elements fails with the selector string inside the error message; and a
selector matching K > 0 items of which the first five yield at least one
non-empty title succeeds with results_found = K. -/
theorem validate_config_spec :
    ∀ (cfg : SiteConfig) (soup : Elem) (K : Nat),
      (soup.select cfg.selectors.result_item = [] →
        (validate_config cfg (Except.ok soup)).success = false ∧
        ∃ err, (validate_config cfg (Except.ok soup)).error = some err ∧
          pyIn cfg.selectors.result_item err = true) ∧
      ((soup.select cfg.selectors.result_item).length = K →
        ((soup.select cfg.selectors.result_item).take 5).filterMap (itemTitle cfg) ≠ [] →
        (validate_config cfg (Except.ok soup)).success = true ∧
        (validate_config cfg (Except.ok soup)).results_found = K) := by
  intro cfg soup K
  constructor
  · intro hempty
    rw [validate_config]
    rw [hempty]
    refine ⟨rfl, "No results found with selector " ++ sqch ++ cfg.selectors.result_item ++ sqch, rfl, ?_⟩
    apply decide_eq_true
    exact ⟨("No results found with selector " ++ sqch).data, sqch.data, by
      simp [String.data_append]⟩
  · intro hK htitles
    have hne : (soup.select cfg.selectors.result_item).isEmpty = false := by
      rcases h : soup.select cfg.selectors.result_item with _ | ⟨a, t⟩
      · rw [h] at hK htitles
        simp at htitles
      · rfl
    have htf : (((soup.select cfg.selectors.result_item).take 5).filterMap (itemTitle cfg)).isEmpty = false := by
      rcases h : ((soup.select cfg.selectors.result_item).take 5).filterMap (itemTitle cfg) with _ | ⟨a, t⟩
      · exact absurd h htitles
      · rfl
    rw [validate_config]
    rw [if_neg (by simp [hne]), if_neg (by simp [htf])]
    exact ⟨rfl, hK⟩

/-- Witness for C7 at concrete fixtures: an empty page fails with the
selector named in the error; a page with three items whose titles extract
succeeds with results_found = 3. -/
theorem validate_config_spec_witness :
    ((validate_config c7Config (Except.ok (Elem.mk "html" [] "" "" (fun _ => []) none none))).success = false ∧
      ∃ err, (validate_config c7Config (Except.ok (Elem.mk "html" [] "" "" (fun _ => []) none none))).error = some err ∧
        pyIn ".r" err = true) ∧
    ((validate_config c7Config (Except.ok c7Soup)).success = true ∧
      (validate_config c7Config (Except.ok c7Soup)).results_found = 3) :=
  ⟨(validate_config_spec _ _ 0).1 rfl,
   (validate_config_spec _ c7Soup 3).2 rfl (by decide)⟩

theorem parse_size_nonneg : ∀ (s : String) (v : Int), parse_size s = some v → 0 ≤ v := by
  intro s v h
  unfold parse_size at h
  split at h
  · simp only [Option.some.injEq] at h
    omega
  · split at h
    · exact Option.noConfusion h
    · simp only [Option.some.injEq] at h
      subst h
      exact Int.natCast_nonneg _

theorem x1337Count_nonneg (c : Elem) : 0 ≤ x1337Count c := by
  unfold x1337Count
  split
  · exact Int.natCast_nonneg _
  · exact le_refl 0

theorem x1337ParseRow_nonneg (row : Elem) (r : TorrentResult)
    (h : x1337ParseRow row = Except.ok (some r)) :
    0 ≤ r.seeders ∧ 0 ≤ r.leechers ∧ 0 ≤ r.size := by
  unfold x1337ParseRow at h
  split at h
  · split at h
    · simp at h
    · split at h
      · simp at h
      · split at h
        · simp at h
        · rename_i hsz
          simp only [Except.ok.injEq, Option.some.injEq] at h
          subst h
          refine ⟨?_, ?_, ?_⟩ <;> dsimp only
          · exact x1337Count_nonneg _
          · exact x1337Count_nonneg _
          · split at hsz
            · simp only [Option.some.injEq] at hsz
              omega
            · exact parse_size_nonneg _ _ hsz
  · simp at h

theorem x1337Collect_nonneg : ∀ (rows : List Elem) (r : TorrentResult),
    r ∈ x1337Collect rows → 0 ≤ r.seeders ∧ 0 ≤ r.leechers ∧ 0 ≤ r.size := by
  intro rows
  induction rows with
  | nil => intro r hr; simp [x1337Collect] at hr
  | cons row rest ih =>
    intro r hr
    rw [x1337Collect] at hr
    cases hp : x1337ParseRow row with
    | error e =>
      rw [hp] at hr
      exact absurd hr (List.not_mem_nil r)
    | ok o =>
      cases o with
      | none =>
        rw [hp] at hr
        exact ih r hr
      | some r0 =>
        rw [hp] at hr
        rcases List.mem_cons.mp hr with h | h
        · subst h
          exact x1337ParseRow_nonneg row r hp
        · exact ih r h

theorem dynParseResult_size_nonneg (cfg : SiteConfig) (uj : String → String → String)
    (item : Elem) (r : TorrentResult)
    (h : dynParseResult cfg uj item = Except.ok (some r)) : 0 ≤ r.size := by
  unfold dynParseResult at h
  split at h
  · simp at h
  · split at h
    · simp at h
    · split at h
      · simp at h
      · rename_i hsz
        simp only [Except.ok.injEq, Option.some.injEq] at h
        subst h
        dsimp only
        split at hsz
        · split at hsz
          · exact parse_size_nonneg _ _ hsz
          · simp only [Option.some.injEq] at hsz
            omega
        · simp only [Option.some.injEq] at hsz
          omega

theorem dynCollect_size_nonneg (cfg : SiteConfig) (uj : String → String → String) :
    ∀ (items : List Elem) (r : TorrentResult),
      r ∈ dynCollect cfg uj items → 0 ≤ r.size := by
  intro items
  induction items with
  | nil => intro r hr; simp [dynCollect] at hr
  | cons item rest ih =>
    intro r hr
    rw [dynCollect] at hr
    cases hp : dynParseResult cfg uj item with
    | error e =>
      rw [hp] at hr
      exact absurd hr (List.not_mem_nil r)
    | ok o =>
      cases o with
      | none =>
        rw [hp] at hr
        exact ih r hr
      | some r0 =>
        rw [hp] at hr
        rcases List.mem_cons.mp hr with h | h
        · subst h
          exact dynParseResult_size_nonneg cfg uj item r hp
        · exact ih r h

/-- C9 counterexample: a seeders selector matching the text -5 produces a
Result with seeders = -5 < 0 (the int() call of _parse_result accepts a
sign, unlike the isdigit() guard of the 1337x adapter). -/
theorem negative_seeders_counterexample :
    dyn_search c9Config (fun _ h => h) (Except.ok c9Soup) =
      [{ title := "A", seeders := -5, leechers := 0, size := 0, source := "Dyn",
         magnet_link := none, detail_url := none }] ∧
    ¬(0 : Int) ≤ -5 :=
  ⟨rfl, by decide⟩

/-- C9 amended: every Result of X1337Source.search has non-negative
seeders, leechers and size for every page content (isdigit() guards the
counts and parse_size yields non-negative byte counts); every Result of
DynamicSource.search has non-negative size; but DynamicSource seeders and
leechers take the value int() parses from the selector text, which is
negative when the text is a negative integer literal. -/
theorem results_nonneg_spec :
    (∀ (fetch : Except String Elem), ∀ r ∈ x1337_search fetch,
      0 ≤ r.seeders ∧ 0 ≤ r.leechers ∧ 0 ≤ r.size) ∧
    (∀ (cfg : SiteConfig) (uj : String → String → String) (fetch : Except String Elem),
      ∀ r ∈ dyn_search cfg uj fetch, 0 ≤ r.size) := by
  constructor
  · intro fetch r hr
    cases fetch with
    | error e => simp [x1337_search] at hr
    | ok soup => exact x1337Collect_nonneg _ r hr
  · intro cfg uj fetch r hr
    cases fetch with
    | error e => simp [dyn_search] at hr
    | ok soup => exact dynCollect_size_nonneg cfg uj _ r hr

/-- Witness for C9 amended at concrete pages: the parsed 1337x row has
non-negative counts and size, and the dynamic result of the c9 page has
non-negative size. -/
theorem results_nonneg_spec_witness :
    ((0 : Int) ≤ 7 ∧ (0 : Int) ≤ 3 ∧ (0 : Int) ≤ 1073741824) ∧ (0 : Int) ≤ 0 :=
  ⟨results_nonneg_spec.1 (Except.ok c9XSoup)
     { title := "B", seeders := 7, leechers := 3, size := 1073741824, source := "1337x",
       magnet_link := none, detail_url := some "https://1337x.to/t/1" }
     (by decide),
   results_nonneg_spec.2 c9Config (fun _ h => h) (Except.ok c9Soup)
     { title := "A", seeders := -5, leechers := 0, size := 0, source := "Dyn",
       magnet_link := none, detail_url := none }
     (by decide)⟩

/-- C3 counterexample: a parse error during the search does not yield an
empty sequence: the second item raises (parse_size ValueError), the outer
except catches it, and the result of the first item is returned. -/
theorem dyn_search_parse_error_counterexample :
    dynParseResult c3Config (fun _ h => h) c3Item2 = Except.error () ∧
    dyn_search c3Config (fun _ h => h) (Except.ok c3Soup) =
      [{ title := "A", seeders := 0, leechers := 0, size := 1073741824, source := "Dyn",
         magnet_link := none, detail_url := none }] :=
  ⟨rfl, rfl⟩

/-- C3 amended: a Source search never propagates a failure (it always
returns a result list); a transport or document-level error yields the
empty sequence; an item-level parse exception ends extraction at the
failing item, yielding exactly the results parsed before it (which may be
non-empty). -/
theorem source_search_failure_spec :
    (∀ (cfg : SiteConfig) (uj : String → String → String) (e : String),
      dyn_search cfg uj (Except.error e) = []) ∧
    (∀ e : String, x1337_search (Except.error e) = []) ∧
    (∀ (cfg : SiteConfig) (uj : String → String → String) (items : List Elem)
      (item : Elem) (rest : List Elem),
      dynParseResult cfg uj item = Except.error () →
      dynCollect cfg uj (items ++ item :: rest) = dynCollect cfg uj items) := by
  refine ⟨fun _ _ _ => rfl, fun _ => rfl, ?_⟩
  intro cfg uj items item rest herr
  induction items with
  | nil => simp [dynCollect, herr]
  | cons a t ih =>
    rw [List.cons_append, dynCollect, dynCollect]
    cases dynParseResult cfg uj a with
    | error e => rfl
    | ok o =>
      cases o with
      | none => exact ih
      | some r => exact congrArg (List.cons r) ih

/-- Witness for C3 amended at the concrete fixtures: the failing transport
cases return empty lists, and appending the raising item after the clean
item leaves exactly the clean items results. -/
theorem source_search_failure_spec_witness :
    dyn_search c3Config (fun _ h => h) (Except.error "timeout") = [] ∧
    x1337_search (Except.error "timeout") = [] ∧
    dynCollect c3Config (fun _ h => h) ([c3Item1] ++ c3Item2 :: []) =
      dynCollect c3Config (fun _ h => h) [c3Item1] :=
  ⟨source_search_failure_spec.1 c3Config (fun _ h => h) "timeout",
   source_search_failure_spec.2.1 "timeout",
   source_search_failure_spec.2.2 c3Config (fun _ h => h) [c3Item1] c3Item2 [] rfl⟩

/-- C8: for every validator under which both the article-based and the
list-based candidate configs would independently validate, the analysis of
the fixture site returns the article-based config: detection orders the
candidates by confidence descending (the two article candidates at 0.8
precede the list candidate at 0.4) and the first validation success
short-circuits the whole analysis. -/
theorem analyzer_prefers_article :
    ∀ validate : SiteConfig → ValidationResult,
      (validate c8ArticleConfig).success = true →
      (validate c8ListConfig).success = true →
      detect_result_structure c8Results = [c8ArtCand, c8ArtCand, c8LiCand] ∧
      analyzeFrom "http://fx.example" "Fx" "test" (fun _ h => h)
        (Except.ok c8Home) (fun _ => Except.ok c8Results) validate =
        { success := true, config := some c8ArticleConfig,
          validation := some (validate c8ArticleConfig) } ∧
      c8ArticleConfig.selectors.result_item = "article" ∧
      c8ListConfig.selectors.result_item = "li" := by
  intro validate h1 h2
  refine ⟨rfl, ?_, rfl, rfl⟩
  have hstep : analyzeFrom "http://fx.example" "Fx" "test" (fun _ h => h)
      (Except.ok c8Home) (fun _ => Except.ok c8Results) validate =
      (match tryStructures "http://fx.example" "Fx" c8P1 c8Results validate
          [c8ArtCand, c8ArtCand, c8LiCand] with
       | some (config, validation) =>
         ({ success := true, config := some config,
            validation := some validation } : AnalysisResult)
       | none => tryPatterns "http://fx.example" "Fx" "test"
           (fun _ => Except.ok c8Results) validate c8RestPatterns) := rfl
  have hts : tryStructures "http://fx.example" "Fx" c8P1 c8Results validate
      [c8ArtCand, c8ArtCand, c8LiCand] =
      (if (validate c8ArticleConfig).success then
         some (c8ArticleConfig, validate c8ArticleConfig)
       else tryStructures "http://fx.example" "Fx" c8P1 c8Results validate
         [c8ArtCand, c8LiCand]) := rfl
  rw [hstep, hts, h1]
  simp

/-- Witness for C8 at the always-succeeding validator: the analysis of the
fixture returns the article-based config. -/
theorem analyzer_prefers_article_witness :
    detect_result_structure c8Results = [c8ArtCand, c8ArtCand, c8LiCand] ∧
    analyzeFrom "http://fx.example" "Fx" "test" (fun _ h => h)
      (Except.ok c8Home) (fun _ => Except.ok c8Results)
      (fun _ => { success := true }) =
      { success := true, config := some c8ArticleConfig,
        validation := some { success := true } } ∧
    c8ArticleConfig.selectors.result_item = "article" ∧
    c8ListConfig.selectors.result_item = "li" :=
  analyzer_prefers_article (fun _ => { success := true }) rfl rfl
